import Mathlib

/-!
Verification development for the Clockity timer engine (src/Clockity.py).

The program keeps a stopwatch and a countdown, both ticking at one
decisecond per loop iteration.  Times are held as hours, minutes, seconds
and deciseconds; the Python code stores `HH:MM:SS` strings
(`str(x).zfill(2)` joined by colons) together with a separate decisecond
value, and all arithmetic is done on the integer components.  We embed the
integer components directly (`Int` fields, so that underflow below zero is
representable) and keep the string formatting as separate functions that
mirror the Python string construction.
-/

/-- Value type for `hours:minutes:seconds.deciseconds`, mirroring the four
integer locals (`hours`, `minutes`, `seconds`, `deci_sec`) that the
Python loops in `start_stopwatch` / `start_countdown` operate on. -/
structure TimeCode where
  hours : Int
  minutes : Int
  seconds : Int
  deci : Int
deriving DecidableEq, Repr

/-- Total number of deciseconds represented by a `TimeCode`. -/
def TimeCode.val (t : TimeCode) : Int :=
  36000 * t.hours + 600 * t.minutes + 10 * t.seconds + t.deci

/-- Field ranges maintained by the carry/borrow arithmetic:
`0 ≤ deci ≤ 9`, `0 ≤ seconds ≤ 59`, `0 ≤ minutes ≤ 59`, `hours ≥ 0`. -/
def TimeCode.Normalized (t : TimeCode) : Prop :=
  0 ≤ t.hours ∧ 0 ≤ t.minutes ∧ t.minutes ≤ 59 ∧
    0 ≤ t.seconds ∧ t.seconds ≤ 59 ∧ 0 ≤ t.deci ∧ t.deci ≤ 9

instance (t : TimeCode) : Decidable t.Normalized := by
  unfold TimeCode.Normalized; infer_instance

/-- One tick of the stopwatch arithmetic, from `start_stopwatch`
(src/Clockity.py lines 373-382): `deci_sec += 1`, carrying a `10` into
seconds, a `60` into minutes and a `60` into hours. -/
def TimeCode.increment : TimeCode → TimeCode
  | ⟨h, m, s, d⟩ =>
    if d + 1 = 10 then
      if s + 1 = 60 then
        if m + 1 = 60 then ⟨h + 1, 0, 0, 0⟩
        else ⟨h, m + 1, 0, 0⟩
      else ⟨h, m, s + 1, 0⟩
    else ⟨h, m, s, d + 1⟩

/-- One tick of the countdown arithmetic, from `start_countdown`
(src/Clockity.py lines 764-767 and 808-813): `deci_sec_2 -= 1`, borrowing
through seconds, minutes and hours.  Inside the `deci_sec_2 == -1` branch
the code first checks `self.updated_time == '00:00:00'` (the stored string
formatted from the current `h`, `m`, `s`) and, when it matches, stops the
countdown and starts the alarm; this outcome is `none`.  Otherwise the
borrow chain of lines 808-813 runs and the new value is `some`. -/
def TimeCode.decrement : TimeCode → Option TimeCode
  | ⟨h, m, s, d⟩ =>
    if d - 1 = -1 then
      if h = 0 ∧ m = 0 ∧ s = 0 then none
      else if s - 1 = -1 then
        if m - 1 = -1 then some ⟨h - 1, 59, 59, 9⟩
        else some ⟨h, m - 1, 59, 9⟩
      else some ⟨h, m, s - 1, 9⟩
    else some ⟨h, m, s, d - 1⟩

/-- Lap difference `current - previous`, from `record_lap`
(src/Clockity.py lines 420-432): component-wise subtraction followed by
three borrow fix-ups (`10 - -diff_d`, `60 - -diff_s`, `60 - -diff_m`),
each decrementing the next component up. -/
def TimeCode.difference (cur prev : TimeCode) : TimeCode :=
  let dd0 := cur.deci - prev.deci
  let ds0 := cur.seconds - prev.seconds
  let dm0 := cur.minutes - prev.minutes
  let dh0 := cur.hours - prev.hours
  let dd1 := if dd0 < 0 then 10 - -dd0 else dd0
  let ds1 := if dd0 < 0 then ds0 - 1 else ds0
  let ds2 := if ds1 < 0 then 60 - -ds1 else ds1
  let dm1 := if ds1 < 0 then dm0 - 1 else dm0
  let dm2 := if dm1 < 0 then 60 - -dm1 else dm1
  let dh1 := if dm1 < 0 then dh0 - 1 else dh0
  ⟨dh1, dm2, ds2, dd1⟩

/-- The borrow chain in `TimeCode.difference` preserves the weighted sum:
the value of the difference is always the difference of the values. -/
theorem TimeCode.difference_val (cur prev : TimeCode) :
    (TimeCode.difference cur prev).val = cur.val - prev.val := by
  rcases cur with ⟨h, m, s, d⟩
  rcases prev with ⟨h', m', s', d'⟩
  simp only [TimeCode.difference, TimeCode.val]
  split_ifs <;> omega

/-- Claim C9: for every normalized `TimeCode` below the overflow ceiling
`99:59:59.9`, one tick of the stopwatch increment followed by one tick of
the countdown decrement returns the original value. -/
theorem claim_c9_increment_decrement_inverse (t : TimeCode)
    (hn : t.Normalized) (hc : t.val < TimeCode.val ⟨99, 59, 59, 9⟩) :
    TimeCode.decrement (TimeCode.increment t) = some t := by
  rcases t with ⟨h, m, s, d⟩
  obtain ⟨h0, m0, m59, s0, s59, d0, d9⟩ := hn
  simp only at h0 m0 m59 s0 s59 d0 d9
  simp only [TimeCode.increment]
  split_ifs <;>
    simp only [TimeCode.decrement] <;>
    split_ifs <;>
    simp only [Option.some.injEq, TimeCode.mk.injEq, true_and, and_true] at * <;>
    omega

/-- Witness for claim C9 at the concrete value `00:00:00.0`. -/
theorem claim_c9_witness :
    TimeCode.Normalized ⟨0, 0, 0, 0⟩ ∧
      TimeCode.val ⟨0, 0, 0, 0⟩ < TimeCode.val ⟨99, 59, 59, 9⟩ ∧
      TimeCode.decrement (TimeCode.increment ⟨0, 0, 0, 0⟩) = some ⟨0, 0, 0, 0⟩ :=
  ⟨by decide, by decide,
    claim_c9_increment_decrement_inverse ⟨0, 0, 0, 0⟩ (by decide) (by decide)⟩

/-!
String formatting.  The Python code renders times as `HH:MM:SS` strings
via `str(x).zfill(2)` joined by colons, and formats the digit-entry
buffer with `format_number_inputs`.
-/

/-- Python `str(x).zfill(2)`: pad the decimal representation on the left
with zeros to at least two characters. -/
def zfill2 (str : String) : String :=
  if str.length < 2 then String.mk (List.replicate (2 - str.length) '0') ++ str
  else str

/-- The `HH:MM:SS` string built throughout the source as
`str(hours).zfill(2) + ':' + str(minutes).zfill(2) + ':' + str(seconds).zfill(2)`
(src/Clockity.py lines 340-346, 740-746, 837-845). -/
def fmtHMS (h m s : Int) : String :=
  zfill2 (toString h) ++ ":" ++ zfill2 (toString m) ++ ":" ++ zfill2 (toString s)

/-- `format_number_inputs` (src/Clockity.py lines 590-634): formats the
digit-entry buffer `time_update` as `hours:minutes:seconds`, by cases on
the buffer length.  The buffer is a string of decimal digits; we embed it
as its character list.  Lengths outside 1..6 have no branch in the source
(the function is only called right after a digit is appended to a buffer
that had fewer than six digits); for them the source would leave the
previous `updated_time` unchanged, and we return the empty string. -/
def format_number_inputs (u : List Char) : String :=
  if u.length = 1 then "00:00:0" ++ String.mk u
  else if u.length = 2 then "00:00:" ++ String.mk u
  else if u.length = 3 then
    "00:0" ++ String.mk (u.take 1) ++ ":" ++ String.mk ((u.drop 1).take 2)
  else if u.length = 4 then
    "00:" ++ String.mk (u.take 2) ++ ":" ++ String.mk ((u.drop 2).take 2)
  else if u.length = 5 then
    "0" ++ String.mk (u.take 1) ++ ":" ++ String.mk ((u.drop 1).take 2) ++
      ":" ++ String.mk ((u.drop 3).take 2)
  else if u.length = 6 then
    String.mk (u.take 2) ++ ":" ++ String.mk ((u.drop 2).take 2) ++
      ":" ++ String.mk ((u.drop 4).take 2)
  else ""

/-- Spec-side definition for claim C6, written from the spec text alone:
right-align the digits in a six-character field, zero-padding on the left
(so the digits fill seconds first, then minutes, then hours), and render
the field as `HH:MM:SS`. -/
def rightJustifySpec (u : List Char) : String :=
  let p := List.replicate (6 - u.length) '0' ++ u
  String.mk (p.take 2) ++ ":" ++ String.mk ((p.drop 2).take 2) ++
    ":" ++ String.mk (p.drop 4)

/-- Claim C6: `format_number_inputs` right-justifies every digit string of
length 1 to 6 into `HH:MM:SS`, filling seconds first, then minutes, then
hours, zero-padding the rest (so a single digit 7 becomes 00:00:07, the
four digits 1234 become 00:12:34, and six digits 123456 become 12:34:56). -/
theorem claim_c6_parse_right_justifies (u : List Char)
    (hlo : 1 ≤ u.length) (hhi : u.length ≤ 6) :
    format_number_inputs u = rightJustifySpec u := by
  rcases u with _ | ⟨a, _ | ⟨b, _ | ⟨c, _ | ⟨d, _ | ⟨e, _ | ⟨f, _ | ⟨g, t⟩⟩⟩⟩⟩⟩⟩
  · simp at hlo
  · rfl
  · rfl
  · rfl
  · rfl
  · rfl
  · rfl
  · simp only [List.length_cons] at hhi
    omega

/-- Witness for claim C6 at the four-digit string 1234, whose formatted
preview is 00:12:34. -/
theorem claim_c6_witness :
    1 ≤ (['1', '2', '3', '4'] : List Char).length ∧
      (['1', '2', '3', '4'] : List Char).length ≤ 6 ∧
      format_number_inputs ['1', '2', '3', '4'] = rightJustifySpec ['1', '2', '3', '4'] ∧
      format_number_inputs ['1', '2', '3', '4'] = "00:12:34" :=
  ⟨by decide, by decide,
    claim_c6_parse_right_justifies ['1', '2', '3', '4'] (by decide) (by decide),
    by decide⟩

/-!
Countdown engine.  The `CountDown` frame keeps, besides its widgets, the
attributes `number_key`, `countdown_key`, `time_update` (the digit
buffer), `updated_time` (an `HH:MM:SS` string), `updated_deci` and
`alarm_key`.  Everywhere it is read, `updated_time` is a rendering of
three integer fields (the initial empty string is only read after Set,
which requires a non-empty buffer, has rewritten it), so we embed it by
those integers and keep the text of `countdown_time_label` /
`countdown_mini_time_label` as separate fields, because `clear_countdown`
resets the labels but not `updated_time`.  The control location of the
nested while loops of `start_countdown` becomes an explicit mode, and
`alarmPulses` counts the `sounds(3)` alarm pulses emitted so far.
-/

/-- Control location of the countdown engine. -/
inductive CdMode
  | entering
  | armed
  | running
  | paused
  | alarming
deriving DecidableEq, Repr

/-- State of the countdown engine (attributes from src/Clockity.py lines
583-588; label texts from lines 881-893). -/
structure CdState where
  numberKey : Bool
  countdownKey : Bool
  timeUpdate : List (Fin 10)
  hours : Int
  minutes : Int
  seconds : Int
  updatedDeci : Int
  alarmKey : Int
  labelHMS : String
  labelDeci : Int
  alarmPulses : Nat
  mode : CdMode
deriving DecidableEq, Repr

/-- Initial countdown state. -/
def cdInit : CdState :=
  { numberKey := true, countdownKey := false, timeUpdate := [],
    hours := 0, minutes := 0, seconds := 0, updatedDeci := 0, alarmKey := 0,
    labelHMS := "00:00:00", labelDeci := 0, alarmPulses := 0,
    mode := CdMode.entering }

/-- Digit characters: Python `str(num)` for `num` in 0..9. -/
def digitChar (d : Fin 10) : Char := Char.ofNat (48 + (d : Nat))

/-- The digit buffer rendered as the string the source keeps in
`time_update`. -/
def bufferChars (ds : List (Fin 10)) : List Char := ds.map digitChar

/-- Numeric content of the `HH:MM:SS` preview that `format_number_inputs`
builds from the digit buffer, and that `set_countdown` reads back with
`int(self.updated_time[0:2])`, `[3:5]`, `[6:8]`: the digits right-aligned
into seconds, then minutes, then hours.  The empty buffer stands for the
initial `updated_time` (all zero); buffers longer than six digits never
occur. -/
def parseDigits : List (Fin 10) → Int × Int × Int
  | [] => (0, 0, 0)
  | [a] => (0, 0, (a.val : Int))
  | [a, b] => (0, 0, 10 * (a.val : Int) + (b.val : Int))
  | [a, b, c] => ((0 : Int), (a.val : Int), 10 * (b.val : Int) + (c.val : Int))
  | [a, b, c, d] =>
      ((0 : Int), 10 * (a.val : Int) + (b.val : Int), 10 * (c.val : Int) + (d.val : Int))
  | [a, b, c, d, e] =>
      ((a.val : Int), 10 * (b.val : Int) + (c.val : Int), 10 * (d.val : Int) + (e.val : Int))
  | [a, b, c, d, e, f] =>
      (10 * (a.val : Int) + (b.val : Int), 10 * (c.val : Int) + (d.val : Int),
        10 * (e.val : Int) + (f.val : Int))
  | _ => (0, 0, 0)

/-- Appending an accepted digit:
`self.time_update = self.time_update + str(num)` followed by
`format_number_inputs()`, which rewrites `updated_time` (our numeric
fields) and the time label (src/Clockity.py lines 590-634, 660-667). -/
def CdState.push (s : CdState) (num : Fin 10) : CdState :=
  { s with
    timeUpdate := s.timeUpdate ++ [num],
    hours := (parseDigits (s.timeUpdate ++ [num])).1,
    minutes := (parseDigits (s.timeUpdate ++ [num])).2.1,
    seconds := (parseDigits (s.timeUpdate ++ [num])).2.2,
    labelHMS := format_number_inputs (bufferChars (s.timeUpdate ++ [num])) }

/-- `number_buttons(num)` (src/Clockity.py lines 636-667): while
`number_key` is set, appends the digit to `time_update` — rejecting a
leading 0 and any digit beyond the sixth — and recomputes the preview. -/
def number_buttons (s : CdState) (num : Fin 10) : CdState :=
  if s.numberKey then
    if num = 0 then
      if s.timeUpdate.length = 0 then s
      else if s.timeUpdate.length < 6 then s.push num
      else s
    else
      if s.timeUpdate.length < 6 then s.push num
      else s
  else s

/-- The overflow fold of `set_countdown` (src/Clockity.py lines 836-845)
as a standalone function on the three parsed fields — the spec calls it
`normalizeOverflow`: when seconds or minutes exceed 59, fold the excess
upward once with integer division and remainder. -/
def normalize_overflow (h m s : Int) : Int × Int × Int :=
  if s > 59 ∨ m > 59 then (h + m / 60, m % 60 + s / 60, s % 60) else (h, m, s)

/-- `set_countdown` (src/Clockity.py lines 815-871): a no-op on an empty
buffer; otherwise it clears the buffer, disables digit entry and — when
the parsed seconds or minutes exceed 59 — folds the excess upward and
re-renders the label; the Set button becomes Start (mode `armed`). -/
def set_countdown (s : CdState) : CdState :=
  if s.timeUpdate = [] then s
  else if s.seconds > 59 ∨ s.minutes > 59 then
    { s with
      timeUpdate := [], numberKey := false, mode := CdMode.armed,
      hours := s.hours + s.minutes / 60,
      minutes := s.minutes % 60 + s.seconds / 60,
      seconds := s.seconds % 60,
      labelHMS := fmtHMS (s.hours + s.minutes / 60)
        (s.minutes % 60 + s.seconds / 60) (s.seconds % 60) }
  else
    { s with timeUpdate := [], numberKey := false, mode := CdMode.armed }

/-- Pressing Start or Cont. (`start_countdown` entry, src/Clockity.py
lines 709-735): sets `countdown_key` and enters the running loop; the
loop locals are parsed back from `updated_time`, which our state already
holds numerically. -/
def start_countdown (s : CdState) : CdState :=
  { s with countdownKey := true, mode := CdMode.running }

/-- `pause_countdown` (src/Clockity.py lines 693-707): clears
`countdown_key`, so the running loop exits at its next guard check. -/
def pause_countdown (s : CdState) : CdState :=
  { s with countdownKey := false, mode := CdMode.paused }

/-- `clear_countdown` (src/Clockity.py lines 669-691): stops the loop,
empties the buffer, zeroes `updated_deci`, re-enables digit entry, sets
`alarm_key` to 14 (which stops a ringing alarm), and resets the two
labels to `00:00:00` and `.0`.  Note that `updated_time` — our `hours`,
`minutes`, `seconds` — is not touched. -/
def clear_countdown (s : CdState) : CdState :=
  { s with
    countdownKey := false, timeUpdate := [], updatedDeci := 0,
    numberKey := true, alarmKey := 14,
    labelHMS := "00:00:00", labelDeci := 0, mode := CdMode.entering }

/-- One event of the countdown machinery.  While `running` (with
`countdown_key` still set) this is one iteration of the decisecond loop
of `start_countdown` (src/Clockity.py lines 738-813): the borrow
arithmetic of `TimeCode.decrement` either stores and displays the
decremented value, or — when the stored time already reads `00:00:00` and
the deciseconds borrow fires — enters the alarm with `alarm_key = 0`
(line 773).  While `alarming` it is one iteration of the pulse loop of
lines 781-795: below 14 it emits one `sounds(3)` pulse and increments
`alarm_key`; at 14 the loop exits, re-enabling digit entry and returning
to `entering` (lines 797-803).  In every other mode nothing ticks. -/
def countdown_tick (s : CdState) : CdState :=
  match s.mode with
  | CdMode.running =>
    if s.countdownKey then
      match TimeCode.decrement ⟨s.hours, s.minutes, s.seconds, s.updatedDeci⟩ with
      | none => { s with mode := CdMode.alarming, alarmKey := 0 }
      | some t =>
        { s with
          hours := t.hours, minutes := t.minutes, seconds := t.seconds,
          updatedDeci := t.deci,
          labelHMS := fmtHMS t.hours t.minutes t.seconds,
          labelDeci := t.deci }
    else s
  | CdMode.alarming =>
    if s.alarmKey < 14 then
      { s with alarmKey := s.alarmKey + 1, alarmPulses := s.alarmPulses + 1 }
    else
      { s with numberKey := true, mode := CdMode.entering }
  | _ => s

/-- Iterated `countdown_tick`. -/
def countdown_run : Nat → CdState → CdState
  | 0, s => s
  | n + 1, s => countdown_run n (countdown_tick s)

/-- Invariant of the digit-entry phase: entry only ever appends to a
buffer of at most six digits whose first digit is nonzero; the numeric
`updated_time` fields always carry the parse of the buffer; and entry
touches neither `updated_deci` nor the mode. -/
def EntryInv (s : CdState) : Prop :=
  s.numberKey = true ∧ s.mode = CdMode.entering ∧ s.updatedDeci = 0 ∧
    s.timeUpdate.length ≤ 6 ∧ (∀ a ∈ s.timeUpdate.head?, a ≠ 0) ∧
    (s.hours, s.minutes, s.seconds) = parseDigits s.timeUpdate

theorem entryInv_cdInit : EntryInv cdInit := by
  refine ⟨rfl, rfl, rfl, by simp [cdInit], by simp [cdInit], rfl⟩

theorem entryInv_number_buttons (s : CdState) (num : Fin 10)
    (h : EntryInv s) : EntryInv (number_buttons s num) := by
  obtain ⟨h1, h2, h3, h4, h5, h6⟩ := h
  have hpush : s.timeUpdate.length < 6 → ¬(num = 0 ∧ s.timeUpdate = []) →
      EntryInv (s.push num) := by
    intro hlen hnz
    refine ⟨h1, h2, h3, ?_, ?_, rfl⟩
    · simp only [CdState.push, List.length_append, List.length_cons,
        List.length_nil]
      omega
    · intro a ha
      rcases hb : s.timeUpdate with _ | ⟨x, xs⟩
      · simp only [CdState.push, hb, List.nil_append, List.head?_cons,
          Option.mem_def, Option.some.injEq] at ha
        subst ha
        intro h0
        exact hnz ⟨h0, hb⟩
      · simp only [CdState.push, hb, List.cons_append, List.head?_cons,
          Option.mem_def, Option.some.injEq] at ha
        rw [← ha]
        exact h5 x (by rw [hb]; rfl)
  unfold number_buttons
  rw [h1]
  by_cases hz : num = 0
  · rw [if_pos rfl, if_pos hz]
    by_cases h0 : s.timeUpdate.length = 0
    · rw [if_pos h0]
      exact ⟨h1, h2, h3, h4, h5, h6⟩
    · rw [if_neg h0]
      by_cases hlt : s.timeUpdate.length < 6
      · rw [if_pos hlt]
        exact hpush hlt (by rintro ⟨-, hb⟩; exact h0 (by rw [hb]; rfl))
      · rw [if_neg hlt]
        exact ⟨h1, h2, h3, h4, h5, h6⟩
  · rw [if_pos rfl, if_neg hz]
    by_cases hlt : s.timeUpdate.length < 6
    · rw [if_pos hlt]
      exact hpush hlt (by rintro ⟨he, -⟩; exact hz he)
    · rw [if_neg hlt]
      exact ⟨h1, h2, h3, h4, h5, h6⟩

theorem entryInv_foldl (ps : List (Fin 10)) :
    EntryInv (List.foldl number_buttons cdInit ps) := by
  suffices key : ∀ (qs : List (Fin 10)) (s : CdState), EntryInv s →
      EntryInv (List.foldl number_buttons s qs) by
    exact key ps cdInit entryInv_cdInit
  intro qs
  induction qs with
  | nil => exact fun s h => h
  | cons q qs ih => exact fun s h => ih _ (entryInv_number_buttons s q h)

/-- Each parsed field is between 0 and 99 (two decimal digits). -/
theorem parseDigits_bounds (ds : List (Fin 10)) :
    0 ≤ (parseDigits ds).1 ∧ (parseDigits ds).1 ≤ 99 ∧
      0 ≤ (parseDigits ds).2.1 ∧ (parseDigits ds).2.1 ≤ 99 ∧
      0 ≤ (parseDigits ds).2.2 ∧ (parseDigits ds).2.2 ≤ 99 := by
  rcases ds with _ | ⟨a, _ | ⟨b, _ | ⟨c, _ | ⟨d, _ | ⟨e, _ | ⟨f, _ | ⟨g, t⟩⟩⟩⟩⟩⟩⟩ <;>
    simp only [parseDigits] <;>
    omega

/-- Claim C1 counterexample: entering the digits 5,9,6,0 (raw parse
00:59:60) and pressing Set leaves minutes = 60.  The single fold of
`set_countdown` adds the seconds carry to a minutes field that was
already 59 and nothing folds the result again, so the claimed bound
`minutes ≤ 59` fails. -/
theorem claim_c1_counterexample :
    ¬ ((set_countdown (List.foldl number_buttons cdInit [5, 9, 6, 0])).minutes ≤ 59) := by
  decide

/-- Claim C1 (amended): for every digit buffer accepted during entry,
after Set completes the fields satisfy `0 ≤ seconds ≤ 59`,
`0 ≤ minutes ≤ 60` and `hours ≥ 0`: the single fold leaves minutes = 60
exactly when the raw minutes field is 59 and the raw seconds field
carries. -/
theorem claim_c1_amended_arm_bounds (ps : List (Fin 10))
    (hne : (List.foldl number_buttons cdInit ps).timeUpdate ≠ []) :
    0 ≤ (set_countdown (List.foldl number_buttons cdInit ps)).seconds ∧
      (set_countdown (List.foldl number_buttons cdInit ps)).seconds ≤ 59 ∧
      0 ≤ (set_countdown (List.foldl number_buttons cdInit ps)).minutes ∧
      (set_countdown (List.foldl number_buttons cdInit ps)).minutes ≤ 60 ∧
      0 ≤ (set_countdown (List.foldl number_buttons cdInit ps)).hours := by
  obtain ⟨-, -, -, -, -, hp⟩ := entryInv_foldl ps
  obtain ⟨b1, b2, b3, b4, b5, b6⟩ :=
    parseDigits_bounds (List.foldl number_buttons cdInit ps).timeUpdate
  have hh := congrArg Prod.fst hp
  have hm2 := congrArg (Prod.fst ∘ Prod.snd) hp
  have hs2 := congrArg (Prod.snd ∘ Prod.snd) hp
  dsimp only [Function.comp] at hh hm2 hs2
  unfold set_countdown
  rw [if_neg hne]
  split_ifs with hc
  · dsimp only
    omega
  · dsimp only
    omega

/-- Witness for the amended claim C1 at the buffer 5960 (where minutes
lands exactly on 60). -/
theorem claim_c1_amended_witness :
    (List.foldl number_buttons cdInit [5, 9, 6, 0]).timeUpdate ≠ [] ∧
      (set_countdown (List.foldl number_buttons cdInit [5, 9, 6, 0])).minutes ≤ 60 :=
  ⟨by decide, (claim_c1_amended_arm_bounds [5, 9, 6, 0] (by decide)).2.2.2.1⟩

/-- A non-empty buffer accepted during entry (first digit nonzero, at
most six digits) parses to at least one second. -/
theorem parseDigits_pos (ds : List (Fin 10)) (hne : ds ≠ [])
    (hhead : ∀ a ∈ ds.head?, a ≠ 0) (hlen : ds.length ≤ 6) :
    1 ≤ 3600 * (parseDigits ds).1 + 60 * (parseDigits ds).2.1 + (parseDigits ds).2.2 := by
  rcases ds with _ | ⟨a, _ | ⟨b, _ | ⟨c, _ | ⟨d, _ | ⟨e, _ | ⟨f, _ | ⟨g, t⟩⟩⟩⟩⟩⟩⟩
  · exact absurd rfl hne
  all_goals
    first
    | (simp only [List.length_cons] at hlen; omega)
    | (have ha : a ≠ 0 := hhead a rfl
       have hv : a.val ≠ 0 := fun hz => ha (Fin.ext hz)
       simp only [parseDigits]
       omega)

/-- Claim C10: every successful Set arms a strictly positive time of at
least one second.  Starting from the initial state, any sequence of
digit presses leaves either an empty buffer (Set is then a no-op) or a
buffer with a nonzero first digit, whose parse — preserved by the
overflow fold — is at least 00:00:01 with deciseconds 0; so a countdown
can only start with remaining at least one second. -/
theorem claim_c10_arm_positive (ps : List (Fin 10))
    (hne : (List.foldl number_buttons cdInit ps).timeUpdate ≠ []) :
    (set_countdown (List.foldl number_buttons cdInit ps)).mode = CdMode.armed ∧
      (set_countdown (List.foldl number_buttons cdInit ps)).updatedDeci = 0 ∧
      1 ≤ 3600 * (set_countdown (List.foldl number_buttons cdInit ps)).hours +
          60 * (set_countdown (List.foldl number_buttons cdInit ps)).minutes +
          (set_countdown (List.foldl number_buttons cdInit ps)).seconds := by
  obtain ⟨-, -, hdeci, hlen, hhead, hp⟩ := entryInv_foldl ps
  have hpos := parseDigits_pos _ hne hhead hlen
  have hh := congrArg Prod.fst hp
  have hm2 := congrArg (Prod.fst ∘ Prod.snd) hp
  have hs2 := congrArg (Prod.snd ∘ Prod.snd) hp
  dsimp only [Function.comp] at hh hm2 hs2
  unfold set_countdown
  rw [if_neg hne]
  split_ifs with hc
  · exact ⟨rfl, hdeci, by dsimp only; omega⟩
  · exact ⟨rfl, hdeci, by dsimp only; omega⟩

/-- Witness for claim C10 at the single digit 5: the armed value is
00:00:05. -/
theorem claim_c10_witness :
    (List.foldl number_buttons cdInit [5]).timeUpdate ≠ [] ∧
      (set_countdown (List.foldl number_buttons cdInit [5])).mode = CdMode.armed ∧
      1 ≤ 3600 * (set_countdown (List.foldl number_buttons cdInit [5])).hours +
          60 * (set_countdown (List.foldl number_buttons cdInit [5])).minutes +
          (set_countdown (List.foldl number_buttons cdInit [5])).seconds :=
  ⟨by decide, (claim_c10_arm_positive [5] (by decide)).1,
    (claim_c10_arm_positive [5] (by decide)).2.2⟩

/-- Claim C7 counterexample: after entering 9 then 9, the displayed
preview is the raw right-justified parse 00:00:99; the claimed pipeline
(parse then `normalize_overflow`) would display 00:01:39.  Digit entry
never applies the overflow fold — only `set_countdown` does. -/
theorem claim_c7_counterexample :
    (number_buttons (number_buttons cdInit 9) 9).labelHMS = "00:00:99" ∧
      parseDigits [9, 9] = (0, 0, 99) ∧
      normalize_overflow 0 0 99 = (0, 1, 39) ∧
      (number_buttons (number_buttons cdInit 9) 9).labelHMS ≠ fmtHMS 0 1 39 := by
  refine ⟨by decide, by decide, by decide, by decide⟩

/-- Claim C7 (amended): digit entry does nothing while `number_key` is
cleared; while it is set, a 0 on an empty buffer and any digit on a full
six-digit buffer are silently ignored, and every accepted digit is
appended to the buffer, with the preview recomputed by
`format_number_inputs` alone (the overflow fold runs only at Set) and
reported to the display. -/
theorem claim_c7_amended_digit_entry (s : CdState) (num : Fin 10) :
    (s.numberKey = false → number_buttons s num = s) ∧
      (s.numberKey = true →
        (num = 0 → s.timeUpdate = [] → number_buttons s num = s) ∧
        (s.timeUpdate.length = 6 → number_buttons s num = s) ∧
        (¬(num = 0 ∧ s.timeUpdate = []) → s.timeUpdate.length < 6 →
          (number_buttons s num).timeUpdate = s.timeUpdate ++ [num] ∧
          (number_buttons s num).labelHMS =
            format_number_inputs (bufferChars (s.timeUpdate ++ [num])))) := by
  constructor
  · intro hk
    unfold number_buttons
    rw [hk]
    rfl
  · intro hk
    refine ⟨?_, ?_, ?_⟩
    · intro hz hb
      unfold number_buttons
      rw [hk, if_pos rfl, if_pos hz, if_pos (by rw [hb]; rfl)]
    · intro hfull
      unfold number_buttons
      rw [hk]
      have hnlt : ¬ s.timeUpdate.length < 6 := by omega
      by_cases hz : num = 0
      · rw [if_pos rfl, if_pos hz, if_neg (by omega), if_neg hnlt]
      · rw [if_pos rfl, if_neg hz, if_neg hnlt]
    · intro hnz hlt
      have hstep : number_buttons s num = s.push num := by
        unfold number_buttons
        rw [hk, if_pos rfl]
        by_cases hz : num = 0
        · rw [if_pos hz,
            if_neg (fun h0 => hnz ⟨hz, List.length_eq_zero.mp h0⟩), if_pos hlt]
        · rw [if_neg hz, if_pos hlt]
      rw [hstep]
      exact ⟨rfl, rfl⟩

/-- Witness for the amended claim C7: with a 1 already buffered, entering
2 appends it and the preview becomes 00:00:12. -/
theorem claim_c7_amended_witness :
    (number_buttons cdInit 1).numberKey = true ∧
      (number_buttons (number_buttons cdInit 1) 2).timeUpdate = [1, 2] ∧
      (number_buttons (number_buttons cdInit 1) 2).labelHMS = "00:00:12" := by
  have h := (claim_c7_amended_digit_entry (number_buttons cdInit 1) 2).2 (by decide)
  have h2 := h.2.2 (by decide) (by decide)
  exact ⟨by decide, h2.1.trans (by decide), h2.2.trans (by decide)⟩

theorem countdown_run_add (a b : Nat) (s : CdState) :
    countdown_run (a + b) s = countdown_run b (countdown_run a s) := by
  induction a generalizing s with
  | zero =>
      rw [Nat.zero_add]
      rfl
  | succ n ih =>
      have hnb : n + 1 + b = (n + b) + 1 := by omega
      rw [hnb]
      show countdown_run (n + b) (countdown_tick s) =
        countdown_run b (countdown_run n (countdown_tick s))
      exact ih (countdown_tick s)

/-- While alarming with `alarm_key = 14 - k`, the next `k` ticks are all
pulses: they raise `alarm_key` to 14 and emit exactly `k` pulses. -/
theorem alarm_phase_run (k : Nat) (hk : k ≤ 14) :
    ∀ s : CdState, s.mode = CdMode.alarming → s.alarmKey = 14 - (k : Int) →
      countdown_run k s =
        { s with alarmKey := 14, alarmPulses := s.alarmPulses + k } := by
  induction k with
  | zero =>
      intro s hm ha
      show s = _
      have hak : s.alarmKey = 14 := by omega
      rcases s with ⟨nk, ck, tu, hh, mm, ss, dd, ak, lh, ld, ap, mo⟩
      simp only at hak
      rw [hak]
      rfl
  | succ n ih =>
      intro s hm ha
      have hstep : countdown_tick s =
          { s with alarmKey := s.alarmKey + 1, alarmPulses := s.alarmPulses + 1 } := by
        unfold countdown_tick
        rw [hm]
        dsimp only
        rw [if_pos (by rw [ha]; omega)]
      show countdown_run n (countdown_tick s) = _
      rw [hstep]
      rw [ih (by omega)
        { s with alarmKey := s.alarmKey + 1, alarmPulses := s.alarmPulses + 1 }
        hm (by dsimp only; omega)]
      have hp : s.alarmPulses + 1 + n = s.alarmPulses + (n + 1) := by omega
      dsimp only
      rw [hp]

/-- When `alarm_key` has reached 14 the alarm loop exits: digit entry is
re-enabled and the engine returns to `entering`. -/
theorem alarm_phase_exit (s : CdState) (hm : s.mode = CdMode.alarming)
    (ha : ¬ s.alarmKey < 14) :
    countdown_tick s = { s with numberKey := true, mode := CdMode.entering } := by
  unfold countdown_tick
  rw [hm]
  dsimp only
  rw [if_neg ha]

/-- Claim C3: a running countdown whose remaining time has reached
00:00:00.0 exactly (buffer empty since Set) enters `alarming` on the next
tick with `alarm_key = 0`; the following 14 ticks emit exactly 14 alarm
pulses, and the tick after that returns the engine to `entering` with
digit entry re-enabled and the buffer still empty. -/
theorem claim_c3_zero_alarm_fourteen_pulses (s : CdState)
    (hm : s.mode = CdMode.running) (hk : s.countdownKey = true)
    (hh : s.hours = 0) (hmin : s.minutes = 0) (hsec : s.seconds = 0)
    (hd : s.updatedDeci = 0) (hb : s.timeUpdate = []) :
    (countdown_tick s).mode = CdMode.alarming ∧
      (countdown_tick s).alarmKey = 0 ∧
      (countdown_run 14 (countdown_tick s)).mode = CdMode.alarming ∧
      (countdown_run 14 (countdown_tick s)).alarmPulses = s.alarmPulses + 14 ∧
      (countdown_run 15 (countdown_tick s)).mode = CdMode.entering ∧
      (countdown_run 15 (countdown_tick s)).numberKey = true ∧
      (countdown_run 15 (countdown_tick s)).timeUpdate = [] ∧
      (countdown_run 15 (countdown_tick s)).alarmPulses = s.alarmPulses + 14 := by
  have e0 : countdown_tick s = { s with mode := CdMode.alarming, alarmKey := 0 } := by
    unfold countdown_tick
    rw [hm]
    dsimp only
    rw [hk, if_pos rfl, hh, hmin, hsec, hd,
      show TimeCode.decrement ⟨0, 0, 0, 0⟩ = none by decide]
  have h14 : countdown_run 14 (countdown_tick s) =
      { s with
        mode := CdMode.alarming,
        alarmKey := 14,
        alarmPulses := s.alarmPulses + 14 } := by
    rw [e0, alarm_phase_run 14 (by omega)
      { s with mode := CdMode.alarming, alarmKey := 0 } rfl (by dsimp only; omega)]
  have h15 : countdown_run 15 (countdown_tick s) =
      countdown_tick (countdown_run 14 (countdown_tick s)) := by
    rw [show (15 : Nat) = 14 + 1 from rfl, countdown_run_add]
    rfl
  have hexit : countdown_tick (countdown_run 14 (countdown_tick s)) =
      { s with
        mode := CdMode.entering,
        numberKey := true,
        alarmKey := 14,
        alarmPulses := s.alarmPulses + 14 } := by
    rw [h14, alarm_phase_exit
      { s with
        mode := CdMode.alarming,
        alarmKey := 14,
        alarmPulses := s.alarmPulses + 14 } rfl (by dsimp only; omega)]
  rw [h15, hexit, h14, e0]
  exact ⟨rfl, rfl, rfl, rfl, rfl, rfl, hb, rfl⟩

/-- The state reached by entering the digit 5, pressing Set, pressing
Start, and ticking 50 times: remaining shows exactly 00:00:00.0 and the
countdown is still running. -/
def cdFiveAtZero : CdState :=
  countdown_run 50 (start_countdown (set_countdown (number_buttons cdInit 5)))

/-- Witness for claim C3 along the spec scenario: arming the single digit
5 and ticking 50 times reaches 00:00:00.0; the theorem then yields the
alarm and the return to entry. -/
theorem claim_c3_witness :
    cdFiveAtZero.mode = CdMode.running ∧ cdFiveAtZero.countdownKey = true ∧
      cdFiveAtZero.hours = 0 ∧ cdFiveAtZero.minutes = 0 ∧
      cdFiveAtZero.seconds = 0 ∧ cdFiveAtZero.updatedDeci = 0 ∧
      cdFiveAtZero.timeUpdate = [] ∧
      (countdown_tick cdFiveAtZero).mode = CdMode.alarming ∧
      (countdown_run 15 (countdown_tick cdFiveAtZero)).mode = CdMode.entering ∧
      (countdown_run 15 (countdown_tick cdFiveAtZero)).alarmPulses =
        cdFiveAtZero.alarmPulses + 14 := by
  have h := claim_c3_zero_alarm_fourteen_pulses cdFiveAtZero (by decide) (by decide)
    (by decide) (by decide) (by decide) (by decide) (by decide)
  exact ⟨by decide, by decide, by decide, by decide, by decide, by decide, by decide,
    h.1, h.2.2.2.2.1, h.2.2.2.2.2.2.2⟩

/-- Claim C4 counterexample: Clear pressed on a paused five-second
countdown resets the display label to 00:00:00, but the internal
remaining time (`updated_time`) still reads 00:00:05, because
`clear_countdown` never writes `updated_time`; so the engine's remaining
is not reset to 00:00:00. -/
theorem claim_c4_counterexample :
    (clear_countdown (pause_countdown (start_countdown (set_countdown
        (number_buttons cdInit 5))))).labelHMS = "00:00:00" ∧
      (clear_countdown (pause_countdown (start_countdown (set_countdown
        (number_buttons cdInit 5))))).seconds = 5 ∧
      ¬ ((clear_countdown (pause_countdown (start_countdown (set_countdown
        (number_buttons cdInit 5))))).seconds = 0) := by
  exact ⟨by decide, by decide, by decide⟩

/-- Claim C4 (amended): `clear()` in any state — including mid-alarm —
immediately short-circuits the alarm (`alarm_key` jumps to 14 and no
further tick does anything, so no pulse fires) and resets the engine to
`entering` with an empty buffer, decisecond field 0 and displayed time
00:00:00.0; the internal `HH:MM:SS` remaining value is left unchanged
(digit entry overwrites it before any later run, and mid-alarm it already
reads 00:00:00). -/
theorem claim_c4_amended_clear (s : CdState) :
    (clear_countdown s).mode = CdMode.entering ∧
      (clear_countdown s).numberKey = true ∧
      (clear_countdown s).countdownKey = false ∧
      (clear_countdown s).timeUpdate = [] ∧
      (clear_countdown s).updatedDeci = 0 ∧
      (clear_countdown s).alarmKey = 14 ∧
      (clear_countdown s).labelHMS = "00:00:00" ∧
      (clear_countdown s).labelDeci = 0 ∧
      (clear_countdown s).hours = s.hours ∧
      (clear_countdown s).minutes = s.minutes ∧
      (clear_countdown s).seconds = s.seconds ∧
      countdown_tick (clear_countdown s) = clear_countdown s ∧
      (clear_countdown s).alarmPulses = s.alarmPulses :=
  ⟨rfl, rfl, rfl, rfl, rfl, rfl, rfl, rfl, rfl, rfl, rfl, rfl, rfl⟩

/-- Witness for the amended claim C4 at the initial state. -/
theorem claim_c4_amended_witness :
    (clear_countdown cdInit).mode = CdMode.entering ∧
      countdown_tick (clear_countdown cdInit) = clear_countdown cdInit := by
  have h := claim_c4_amended_clear cdInit
  exact ⟨h.1, h.2.2.2.2.2.2.2.2.2.2.2.1⟩

/-- A successful countdown decrement keeps hours, minutes and seconds
nonnegative and the decisecond in 0..9 (an `hours` borrow only happens
when the displayed time is not 00:00:00, so hours was at least 1). -/
theorem TimeCode.decrement_nonneg {t u : TimeCode}
    (hd : TimeCode.decrement t = some u)
    (h1 : 0 ≤ t.hours) (h2 : 0 ≤ t.minutes) (h3 : 0 ≤ t.seconds)
    (h4 : 0 ≤ t.deci) (h5 : t.deci ≤ 9) :
    0 ≤ u.hours ∧ 0 ≤ u.minutes ∧ 0 ≤ u.seconds ∧ 0 ≤ u.deci ∧ u.deci ≤ 9 := by
  rcases t with ⟨h, m, s, d⟩
  simp only at h1 h2 h3 h4 h5
  simp only [TimeCode.decrement] at hd
  split_ifs at hd with c1 c2 c3 c4 <;>
    first
    | exact Option.noConfusion hd
    | (injection hd with hd
       subst hd
       exact ⟨by dsimp only; omega, by dsimp only; omega, by dsimp only; omega,
         by dsimp only; omega, by dsimp only; omega⟩)

/-- Field ranges preserved by countdown ticking: deciseconds 0..9 and
hours, minutes, seconds nonnegative.  Minutes and seconds need not be
at most 59 — an armed value can carry minutes = 60 (see claim C1). -/
def CdFieldsOk (s : CdState) : Prop :=
  0 ≤ s.hours ∧ 0 ≤ s.minutes ∧ 0 ≤ s.seconds ∧
    0 ≤ s.updatedDeci ∧ s.updatedDeci ≤ 9

instance (s : CdState) : Decidable (CdFieldsOk s) := by
  unfold CdFieldsOk; infer_instance

theorem cdFieldsOk_tick (s : CdState) (h : CdFieldsOk s) :
    CdFieldsOk (countdown_tick s) := by
  obtain ⟨o1, o2, o3, o4, o5⟩ := h
  unfold countdown_tick
  rcases hsm : s.mode
  case entering => exact ⟨o1, o2, o3, o4, o5⟩
  case armed => exact ⟨o1, o2, o3, o4, o5⟩
  case paused => exact ⟨o1, o2, o3, o4, o5⟩
  case alarming =>
      dsimp only
      split_ifs <;> exact ⟨o1, o2, o3, o4, o5⟩
  case running =>
      dsimp only
      rcases hck : s.countdownKey
      · rw [if_neg (by simp)]
        exact ⟨o1, o2, o3, o4, o5⟩
      · rw [if_pos rfl]
        rcases hdec : TimeCode.decrement ⟨s.hours, s.minutes, s.seconds, s.updatedDeci⟩ with _ | u
        · exact ⟨o1, o2, o3, o4, o5⟩
        · have hu := TimeCode.decrement_nonneg hdec o1 o2 o3 o4 o5
          exact ⟨hu.1, hu.2.1, hu.2.2.1, hu.2.2.2.1, hu.2.2.2.2⟩

/-- Claim C8: arithmetic underflow never occurs.  From any state whose
remaining-time fields are in range (as every armed value is), after any
number of ticks no field of the remaining time — hours, minutes, seconds
or deciseconds — is ever below zero: the per-tick decrement diverts to
the alarm exactly when the remaining time has reached zero. -/
theorem claim_c8_no_underflow (s : CdState) (h : CdFieldsOk s) (n : Nat) :
    0 ≤ (countdown_run n s).hours ∧ 0 ≤ (countdown_run n s).minutes ∧
      0 ≤ (countdown_run n s).seconds ∧ 0 ≤ (countdown_run n s).updatedDeci := by
  suffices hok : ∀ (k : Nat) (s2 : CdState), CdFieldsOk s2 →
      CdFieldsOk (countdown_run k s2) by
    have hres := hok n s h
    exact ⟨hres.1, hres.2.1, hres.2.2.1, hres.2.2.2.1⟩
  intro k
  induction k with
  | zero => exact fun s2 hs => hs
  | succ j ih => exact fun s2 hs => ih (countdown_tick s2) (cdFieldsOk_tick s2 hs)

/-- Witness for claim C8: the armed-and-started five-second countdown,
observed for 60 ticks (past the zero crossing). -/
theorem claim_c8_witness :
    CdFieldsOk (start_countdown (set_countdown (number_buttons cdInit 5))) ∧
      (0 ≤ (countdown_run 60 (start_countdown (set_countdown
          (number_buttons cdInit 5)))).hours ∧
        0 ≤ (countdown_run 60 (start_countdown (set_countdown
          (number_buttons cdInit 5)))).minutes ∧
        0 ≤ (countdown_run 60 (start_countdown (set_countdown
          (number_buttons cdInit 5)))).seconds ∧
        0 ≤ (countdown_run 60 (start_countdown (set_countdown
          (number_buttons cdInit 5)))).updatedDeci) :=
  ⟨by decide, claim_c8_no_underflow _ (by decide) 60⟩

/-!
Stopwatch engine.  The `Stopwatch` frame keeps `stopwatch_key`,
`HMS_key`, `recorded_laps`, the current time strings `new_time`/`new_deci`
and the stored ones `old_time`/`old_deci` (embedded numerically as `cur`
and `old`; the initial empty `old_time` is never read before the first
lap writes it, and is embedded as zero), plus the lap display rows and
the main label.  The control location of the while loop in
`start_stopwatch` becomes an explicit mode.
-/

/-- Phase of the stopwatch: idle (cleared), running, paused, or stopped
at the overflow guard. -/
inductive SwMode
  | idle
  | running
  | paused
  | overflowed
deriving DecidableEq, Repr

/-- A row of the lap display: the lap number, the split (the elapsed time
shown when Lap was pressed) and the printed difference column. -/
structure LapEntry where
  idx : Nat
  split : TimeCode
  delta : TimeCode
deriving DecidableEq, Repr

/-- State of the stopwatch engine (attributes from src/Clockity.py lines
261-267; label texts from lines 463-474). -/
structure SwState where
  stopwatchKey : Bool
  hmsKey : Bool
  recordedLaps : Nat
  cur : TimeCode
  old : TimeCode
  laps : List LapEntry
  label : String
  miniLabel : String
  mode : SwMode
deriving DecidableEq, Repr

/-- Initial stopwatch state. -/
def swInit : SwState :=
  { stopwatchKey := true, hmsKey := true, recordedLaps := 0,
    cur := ⟨0, 0, 0, 0⟩, old := ⟨0, 0, 0, 0⟩, laps := [],
    label := "00:00:00", miniLabel := ".0", mode := SwMode.idle }

/-- `start_stopwatch` entry (src/Clockity.py lines 309-336): sets the key
and begins the loop; with `HMS_key` set the loop counts from zero,
otherwise it resumes from the stored `new_time`/`new_deci`. -/
def start_stopwatch (s : SwState) : SwState :=
  { s with
    stopwatchKey := true,
    mode := SwMode.running,
    cur := if s.hmsKey then ⟨0, 0, 0, 0⟩ else s.cur }

/-- `pause_stopwatch` (src/Clockity.py lines 291-307): clears both keys,
so the loop exits and a later start resumes from the stored time. -/
def pause_stopwatch (s : SwState) : SwState :=
  { s with stopwatchKey := false, hmsKey := false, mode := SwMode.paused }

/-- `clear_stopwatch` (src/Clockity.py lines 269-289): stops the loop,
resets the lap count and the lap display, restores the zero display, and
arranges for the next start to count from zero again. -/
def clear_stopwatch (s : SwState) : SwState :=
  { s with
    stopwatchKey := false, hmsKey := true, recordedLaps := 0,
    laps := [], label := "00:00:00", miniLabel := ".0", mode := SwMode.idle }

/-- One iteration of the decisecond loop in `start_stopwatch`
(src/Clockity.py lines 338-382).  The loop first renders the current
value; if its `HH:MM:SS` part reads `99:59:59` — the comparison
`self.new_time == '99:59:59'` never consults the deciseconds — it shows
`Overflow` and breaks out of the loop; otherwise it displays the value
and, after the sleep, adds one decisecond with carries.  After the break,
or when the key has been cleared, nothing ticks. -/
def stopwatch_tick (s : SwState) : SwState :=
  if s.mode = SwMode.running ∧ s.stopwatchKey = true then
    if s.cur.hours = 99 ∧ s.cur.minutes = 59 ∧ s.cur.seconds = 59 then
      { s with mode := SwMode.overflowed, label := "Overflow", miniLabel := "" }
    else
      { s with
        cur := TimeCode.increment s.cur,
        label := fmtHMS (TimeCode.increment s.cur).hours
          (TimeCode.increment s.cur).minutes (TimeCode.increment s.cur).seconds,
        miniLabel := "." ++ toString (TimeCode.increment s.cur).deci }
  else s

/-- `record_lap` (src/Clockity.py lines 384-460): while the stopwatch key
is set, appends one row to the lap display — the first lap prints the
split itself in its difference column, later laps print
`TimeCode.difference` of the new split and the stored old one — and then
stores the split into `old_time`/`old_deci`. -/
def record_lap (s : SwState) : SwState :=
  if s.stopwatchKey = true then
    if s.recordedLaps + 1 = 1 then
      { s with
        recordedLaps := s.recordedLaps + 1,
        laps := s.laps ++ [⟨s.recordedLaps + 1, s.cur, s.cur⟩],
        old := s.cur }
    else
      { s with
        recordedLaps := s.recordedLaps + 1,
        laps := s.laps ++ [⟨s.recordedLaps + 1, s.cur, TimeCode.difference s.cur s.old⟩],
        old := s.cur }
  else s

/-- Pressing Lap when the running stopwatch has advanced to elapsed time
`t`: the ticks since the previous lap have brought `new_time`/`new_deci`
to `t`, then `record_lap` runs. -/
def lapAt (s : SwState) (t : TimeCode) : SwState :=
  record_lap { s with cur := t }

/-- Claim C2 counterexample: at elapsed 99:59:59.0 — strictly below the
claimed ceiling 99:59:59.9 — the next tick does not advance the elapsed
time; it stops at the overflow guard, which compares only the `HH:MM:SS`
text with `99:59:59`.  The claimed ceiling value is never reached. -/
theorem claim_c2_counterexample :
    (stopwatch_tick { swInit with mode := SwMode.running, cur := ⟨99, 59, 59, 0⟩ }).mode =
        SwMode.overflowed ∧
      (stopwatch_tick { swInit with mode := SwMode.running, cur := ⟨99, 59, 59, 0⟩ }).cur =
        ⟨99, 59, 59, 0⟩ ∧
      TimeCode.val ⟨99, 59, 59, 0⟩ < TimeCode.val ⟨99, 59, 59, 9⟩ := by
  exact ⟨by decide, by decide, by decide⟩

/-- Claim C2 (amended): once the running stopwatch's elapsed time has
`HH:MM:SS` part 99:59:59 (first reached at decisecond 0 when counting
from a reset), the next tick transitions to overflowed without a further
increment: the display receives `Overflow` instead of a numeric value,
further ticks are no-ops, and this persists until `clear()` resets the
engine to idle with a zero display. -/
theorem claim_c2_amended_overflow (s : SwState)
    (hm : s.mode = SwMode.running) (hk : s.stopwatchKey = true)
    (hh : s.cur.hours = 99) (hmin : s.cur.minutes = 59) (hs : s.cur.seconds = 59) :
    (stopwatch_tick s).mode = SwMode.overflowed ∧
      (stopwatch_tick s).label = "Overflow" ∧
      (stopwatch_tick s).cur = s.cur ∧
      stopwatch_tick (stopwatch_tick s) = stopwatch_tick s ∧
      (clear_stopwatch (stopwatch_tick s)).mode = SwMode.idle ∧
      (clear_stopwatch (stopwatch_tick s)).label = "00:00:00" := by
  have e : stopwatch_tick s =
      { s with mode := SwMode.overflowed, label := "Overflow", miniLabel := "" } := by
    unfold stopwatch_tick
    rw [if_pos ⟨hm, hk⟩, if_pos ⟨hh, hmin, hs⟩]
  rw [e]
  refine ⟨rfl, rfl, rfl, ?_, rfl, rfl⟩
  unfold stopwatch_tick
  rw [if_neg (by simp)]

/-- Witness for the amended claim C2 at elapsed 99:59:59.0. -/
theorem claim_c2_amended_witness :
    (stopwatch_tick { swInit with mode := SwMode.running, cur := ⟨99, 59, 59, 0⟩ }).mode =
        SwMode.overflowed ∧
      stopwatch_tick
          (stopwatch_tick { swInit with mode := SwMode.running, cur := ⟨99, 59, 59, 0⟩ }) =
        stopwatch_tick { swInit with mode := SwMode.running, cur := ⟨99, 59, 59, 0⟩ } := by
  have h := claim_c2_amended_overflow
    { swInit with mode := SwMode.running, cur := ⟨99, 59, 59, 0⟩ } rfl rfl rfl rfl rfl
  exact ⟨h.1, h.2.2.2.1⟩

/-- The per-row relation of claim C5: a row's split equals the previous
row's split plus the row's printed difference, as total deciseconds. -/
def LapStep (a b : LapEntry) : Prop :=
  b.split.val = a.split.val + b.delta.val

/-- Invariant maintained by `record_lap`: the row count matches
`recorded_laps`, adjacent rows satisfy `LapStep`, the stored old split is
the last row's split, and the first row's difference column is its own
split. -/
def LapsOk (s : SwState) : Prop :=
  s.recordedLaps = s.laps.length ∧
    List.Chain' LapStep s.laps ∧
    (∀ e ∈ s.laps.getLast?, e.split = s.old) ∧
    (∀ e ∈ s.laps.head?, e.delta = e.split)

theorem lapAt_stopwatchKey (s : SwState) (t : TimeCode) :
    (lapAt s t).stopwatchKey = s.stopwatchKey := by
  unfold lapAt record_lap
  dsimp only
  split_ifs <;> rfl

theorem lapsOk_lapAt (s : SwState) (t : TimeCode)
    (hk : s.stopwatchKey = true) (h : LapsOk s) : LapsOk (lapAt s t) := by
  obtain ⟨hlen, hchain, hlast, hhead⟩ := h
  unfold lapAt record_lap
  dsimp only
  rw [hk, if_pos rfl]
  by_cases h0 : s.recordedLaps + 1 = 1
  · rw [if_pos h0]
    have hnil : s.laps = [] := List.length_eq_zero.mp (by omega)
    refine ⟨?_, ?_, ?_, ?_⟩
    · dsimp only
      rw [hnil]
      simp only [List.nil_append, List.length_cons, List.length_nil]
      omega
    · dsimp only
      rw [hnil]
      exact List.chain'_singleton _
    · dsimp only
      rw [hnil]
      intro e he
      simp only [List.nil_append, List.getLast?_singleton, Option.mem_def,
        Option.some.injEq] at he
      rw [← he]
    · dsimp only
      rw [hnil]
      intro e he
      simp only [List.nil_append, List.head?_cons, Option.mem_def,
        Option.some.injEq] at he
      rw [← he]
  · rw [if_neg h0]
    have hne : s.laps ≠ [] := by
      intro hcon
      rw [hcon] at hlen
      simp only [List.length_nil] at hlen
      omega
    refine ⟨?_, ?_, ?_, ?_⟩
    · dsimp only
      rw [List.length_append, List.length_cons, List.length_nil]
      omega
    · dsimp only
      refine List.chain'_append.mpr ⟨hchain, List.chain'_singleton _, ?_⟩
      intro x hx y hy
      simp only [List.head?_cons, Option.mem_def, Option.some.injEq] at hy
      rw [← hy]
      unfold LapStep
      dsimp only
      rw [TimeCode.difference_val, hlast x hx]
      omega
    · dsimp only
      intro e he
      rw [List.getLast?_concat] at he
      simp only [Option.mem_def, Option.some.injEq] at he
      rw [← he]
    · dsimp only
      intro e he
      rcases hl : s.laps with _ | ⟨x, xs⟩
      · exact absurd hl hne
      · rw [hl] at he
        simp only [List.cons_append, List.head?_cons, Option.mem_def,
          Option.some.injEq] at he
        rw [← he]
        exact hhead x (by rw [hl]; rfl)

/-- Claim C5: for every sequence of laps recorded while the stopwatch is
running, with monotonically non-decreasing split times, adjacent rows of
the lap log satisfy `splitTime[n] = splitTime[n-1] + deltaFromPrevious[n]`
(as total deciseconds), and the first row's difference column equals its
own split. -/
theorem claim_c5_lap_deltas_sum (ts : List TimeCode) (s : SwState)
    (hk : s.stopwatchKey = true) (h0 : s.recordedLaps = 0) (hl : s.laps = [])
    (hmono : List.Chain' (fun a b : TimeCode => a.val ≤ b.val) ts) :
    List.Chain' LapStep (List.foldl lapAt s ts).laps ∧
      ∀ e ∈ (List.foldl lapAt s ts).laps.head?, e.delta = e.split := by
  have hkey : ∀ (us : List TimeCode) (s2 : SwState), s2.stopwatchKey = true →
      LapsOk s2 → LapsOk (List.foldl lapAt s2 us) := by
    intro us
    induction us with
    | nil => exact fun s2 _ hok => hok
    | cons u us ih =>
        intro s2 hk2 hok
        exact ih (lapAt s2 u) (by rw [lapAt_stopwatchKey]; exact hk2)
          (lapsOk_lapAt s2 u hk2 hok)
  have hok0 : LapsOk s := by
    refine ⟨?_, ?_, ?_, ?_⟩
    · rw [hl, h0]
      rfl
    · rw [hl]
      exact List.chain'_nil
    · rw [hl]
      intro e he
      simp at he
    · rw [hl]
      intro e he
      simp at he
  have hres := hkey ts s hk hok0
  exact ⟨hres.2.1, hres.2.2.2⟩

/-- Witness for claim C5: two laps at 00:00:05.3 and 00:01:02.1 recorded
on a freshly started stopwatch. -/
theorem claim_c5_witness :
    (start_stopwatch swInit).stopwatchKey = true ∧
      List.Chain' LapStep
        (List.foldl lapAt (start_stopwatch swInit) [⟨0, 0, 5, 3⟩, ⟨0, 1, 2, 1⟩]).laps ∧
      ∀ e ∈ (List.foldl lapAt (start_stopwatch swInit)
          [⟨0, 0, 5, 3⟩, ⟨0, 1, 2, 1⟩]).laps.head?, e.delta = e.split := by
  have hmono : List.Chain' (fun a b : TimeCode => a.val ≤ b.val)
      [⟨0, 0, 5, 3⟩, ⟨0, 1, 2, 1⟩] :=
    List.chain'_cons.mpr ⟨by decide, List.chain'_singleton _⟩
  have h := claim_c5_lap_deltas_sum [⟨0, 0, 5, 3⟩, ⟨0, 1, 2, 1⟩] (start_stopwatch swInit)
    rfl rfl rfl hmono
  exact ⟨rfl, h.1, h.2⟩
